import Mathlib

/-!
Verification of the ivy activation/dispatch layer against its specification.

The development shallowly embeds, in Lean, the parts of the repository that
the claims speak about:

* the jax-frontend dtype promotion helper `_batch_promotion`
  (src/ivy/functional/frontends/jax/nn/non_linear_activations.py);
* the jax backend kernels `logit`, `relu6`, `batch_norm`, `softplus`
  (src/ivy/functional/backends/jax/experimental/activations.py);
* the unified-surface decorator stacks and the `prelu` control flow
  (src/ivy/functional/ivy/experimental/activations.py);
* the jax frontend `leaky_relu` and `_type_conversion_64`.

Machine floats appear only through the exceptional values the claims talk
about (`nan`, signed infinity); finite values are modelled as rationals and
the transcendental `log` is kept symbolic (`logOf q` stands for log q).
-/

namespace IvySpec

/-- Neutral dtype tokens, as named by the ivy dtype strings that
`_batch_promotion` and `_type_conversion_64` inspect. -/
inductive Dtype
  | bool
  | uint8 | uint16 | uint32 | uint64
  | int8 | int16 | int32 | int64
  | float16 | bfloat16 | float32 | float64
  deriving DecidableEq, BEq, Fintype, Repr

/-- `"float" in dtype` on the ivy dtype string: true exactly for
float16, bfloat16, float32, float64 (the substring test used by
`_type_conversion_64` and `_type_conversion`). -/
def Dtype.isFloatStr : Dtype → Bool
  | .float16 | .bfloat16 | .float32 | .float64 => true
  | _ => false

/-- `_batch_promotion(*args, default_dtype)` from
src/ivy/functional/frontends/jax/nn/non_linear_activations.py.
Python scalars are skipped before this point, so the argument is the
list of dtypes collected from the array arguments; the source stores
them in a `set`, which the membership tests below reproduce. -/
def batch_promotion (ds : List Dtype) (default_dtype : Dtype) : Dtype :=
  if ds.contains .float64 then .float64
  else if ds.contains .float32 then .float32
  else if ds.contains .float16 && ds.contains .bfloat16 then .float32
  else if ds.contains .float16 then .float16
  else if ds.contains .bfloat16 then .bfloat16
  else if ds.contains .int64 || ds.contains .uint64 then .float64
  else if ds.contains .uint32 &&
      (ds.contains .int8 || ds.contains .int16 || ds.contains .int32) then .float64
  else default_dtype

/-- Binary promotion of two array dtypes through `_batch_promotion`
with its default `default_dtype="float64"`. -/
def promote (d1 d2 : Dtype) : Dtype :=
  batch_promotion [d1, d2] .float64

/-! ## Extended float values and the jax backend `logit`

Finite values are rationals; `nan` and the signed infinities are explicit
constructors. `LogitOut.logOf q` stands for the (irrational) real `log q`
with `q > 0`; the claims only ever identify which logarithm is taken. -/

/-- An IEEE-style scalar: nan, ±infinity, or a finite (rational) value. -/
inductive FVal
  | nan | pinf | ninf
  | fin (q : ℚ)
  deriving DecidableEq, Repr

/-- `1 - x` on extended values (the denominator of the log-odds ratio). -/
def oneMinus : FVal → FVal
  | .nan => .nan
  | .pinf => .ninf
  | .ninf => .pinf
  | .fin q => .fin (1 - q)

/-- IEEE division on extended values, as `jnp.divide` behaves on the
inputs reachable from `logit` (zero is unsigned in this model, so a
nonzero finite value divided by zero carries the numerator's sign). -/
def fdiv : FVal → FVal → FVal
  | .nan, _ => .nan
  | _, .nan => .nan
  | .pinf, .pinf => .nan
  | .pinf, .ninf => .nan
  | .ninf, .pinf => .nan
  | .ninf, .ninf => .nan
  | .pinf, .fin q => if q < 0 then .ninf else .pinf
  | .ninf, .fin q => if q < 0 then .pinf else .ninf
  | .fin _, .pinf => .fin 0
  | .fin _, .ninf => .fin 0
  | .fin p, .fin q =>
      if q = 0 then
        (if p = 0 then .nan else if 0 < p then .pinf else .ninf)
      else .fin (p / q)

/-- The symbolic result of `jnp.log`: nan, ±infinity, or `log q`. -/
inductive LogitOut
  | lnan | lpinf | lninf
  | logOf (q : ℚ)
  deriving DecidableEq, Repr

/-- `jnp.log` on extended values: `log nan = nan`, `log (+inf) = +inf`,
`log` of a negative value (or `-inf`) is nan, `log 0 = -inf`, and a
positive finite argument stays symbolic. -/
def flog : FVal → LogitOut
  | .nan => .lnan
  | .pinf => .lpinf
  | .ninf => .lnan
  | .fin q => if q < 0 then .lnan else if q = 0 then .lninf else .logOf q

/-- One element of the jax backend `logit`
(src/ivy/functional/backends/jax/experimental/activations.py):
with `eps=None` replace the element by nan when `x > 1 or x < 0`,
otherwise `jnp.clip(x, eps, 1 - eps)` (i.e. `min (max x eps) (1 - eps)`);
then return `jnp.log (x / (1 - x))`. -/
def logitElem (x : ℚ) (eps : Option ℚ) : LogitOut :=
  let xv : FVal :=
    match eps with
    | none => if x > 1 ∨ x < 0 then .nan else .fin x
    | some e => .fin (min (max x e) (1 - e))
  flog (fdiv xv (oneMinus xv))

/-- The jax backend `logit`, elementwise over the input array. -/
def logit (xs : List ℚ) (eps : Option ℚ) : List LogitOut :=
  xs.map (fun x => logitElem x eps)

/-- The log-odds map as the specification words it: nan off `[0,1]`,
`+inf` exactly at 1, `-inf` exactly at 0, `log (x / (1 - x))` inside. -/
def logOddsSpec (q : ℚ) : LogitOut :=
  if q < 0 ∨ q > 1 then .lnan
  else if q = 1 then .lpinf
  else if q = 0 then .lninf
  else .logOf (q / (1 - q))

/-- The claim's elementwise contract for `logit`: with `eps=None` the
guarded log-odds map; with `eps` set, clamp to `[eps, 1-eps]` first and
then take the log-odds. -/
def logitSpecElem (x : ℚ) (eps : Option ℚ) : LogitOut :=
  match eps with
  | none => if x < 0 ∨ x > 1 then .lnan else logOddsSpec x
  | some e => logOddsSpec (min (max x e) (1 - e))

/-! ## Decorator stacks of the unified operation surface

Each public op in src/ivy/functional/ivy/experimental/activations.py is a
core delegation wrapped in a stack of decorators; the lists below record
them outermost first, exactly as written above each `def`. -/

/-- The cross-cutting decorators applied to the unified ops. -/
inductive Decorator
  | handle_out_argument
  | handle_nestable
  | to_native_arrays_and_back
  | handle_exceptions
  | handle_array_like_without_promotion
  | handle_array_function
  | integer_arrays_to_float
  deriving DecidableEq, BEq, Repr

/-- Decorators on `logit`, outermost first. -/
def logitDecorators : List Decorator :=
  [.handle_out_argument, .handle_nestable, .to_native_arrays_and_back,
   .handle_exceptions, .handle_array_like_without_promotion]

/-- Decorators on `prelu`, outermost first. -/
def preluDecorators : List Decorator :=
  [.handle_out_argument, .handle_nestable, .to_native_arrays_and_back,
   .handle_exceptions, .handle_array_like_without_promotion]

/-- Decorators on `thresholded_relu`, outermost first. -/
def thresholdedReluDecorators : List Decorator :=
  [.to_native_arrays_and_back, .handle_out_argument, .handle_nestable,
   .handle_exceptions, .handle_array_like_without_promotion]

/-- Decorators on `relu6`, outermost first. -/
def relu6Decorators : List Decorator :=
  [.to_native_arrays_and_back, .handle_out_argument, .handle_nestable,
   .handle_exceptions, .handle_array_like_without_promotion,
   .handle_array_function]

/-- Decorators on `batch_norm`, outermost first. -/
def batchNormDecorators : List Decorator :=
  [.handle_out_argument, .handle_nestable, .to_native_arrays_and_back,
   .handle_exceptions, .handle_array_like_without_promotion]

/-- Decorators on `sigmoid`, outermost first; `hard_sigmoid`, `selu`,
`hard_tanh` and `log_sigmoid` repeat this stack verbatim. -/
def sigmoidDecorators : List Decorator :=
  [.integer_arrays_to_float, .to_native_arrays_and_back,
   .handle_out_argument, .handle_nestable, .handle_exceptions,
   .handle_array_like_without_promotion, .handle_array_function]

/-- Decorators on `softplus`, outermost first; `softsign`, `silu`,
`hard_silu`, `leaky_relu`, `elu` and `celu` repeat this stack verbatim. -/
def softplusDecorators : List Decorator :=
  [.to_native_arrays_and_back, .handle_out_argument, .handle_nestable,
   .handle_exceptions, .handle_array_like_without_promotion,
   .handle_array_function]

/-- Decorators on `glu`, outermost first. -/
def gluDecorators : List Decorator :=
  [.handle_out_argument, .handle_nestable, .to_native_arrays_and_back,
   .handle_exceptions, .handle_array_like_without_promotion]

/-- Every decorator stack of the file, one entry per distinct stack
layout carrier (ops sharing a layout are noted on their carrier). -/
def allOpDecorators : List (List Decorator) :=
  [logitDecorators, preluDecorators, thresholdedReluDecorators,
   relu6Decorators, batchNormDecorators, sigmoidDecorators,
   softplusDecorators, gluDecorators]

/-- `handle_exceptions` immediately followed (inward) by
`handle_array_like_without_promotion` somewhere in the stack. -/
def adjExcArrayLike : List Decorator → Bool
  | [] => false
  | [_] => false
  | a :: b :: rest =>
      (a == .handle_exceptions && b == .handle_array_like_without_promotion)
        || adjExcArrayLike (b :: rest)

/-- The shared core of every stack: the out-argument, nestable and
native-conversion decorators all occur, and exception normalization sits
directly outside array-like coercion. -/
def hasCoreStack (l : List Decorator) : Bool :=
  l.contains .handle_out_argument && l.contains .handle_nestable
    && l.contains .to_native_arrays_and_back && adjExcArrayLike l

/-! ## Broadcasting and the `prelu` control flow -/

/-- One dimension pair is broadcast-compatible when equal or either is 1. -/
def dimCompatible (a b : ℕ) : Bool := a == b || a == 1 || b == 1

/-- Numpy-style broadcast compatibility of two shapes (right-aligned;
missing leading dimensions behave as 1). -/
def broadcastCompatible (s1 s2 : List ℕ) : Bool :=
  (List.zipWith dimCompatible s1.reverse s2.reverse).all id

/-- Error kinds surfaced by the modelled calls: ivy's own broadcast
error, the spec taxonomy's shape-mismatch kind, and Python's TypeError. -/
inductive PyExc
  | ivyError
  | shapeMismatchError
  | typeError
  deriving DecidableEq, Repr

/-- A two-dimensional array of rationals (list of equal-length rows). -/
structure Arr2 where
  rows : List (List ℚ)
  deriving DecidableEq, Repr

/-- The shape `(len(rows), len(rows[0]))` of a 2-D array. -/
def Arr2.shape (x : Arr2) : List ℕ :=
  [x.rows.length, (x.rows.head?.getD []).length]

/-- `ivy.where(x > 0, x, x * slope)` for a 2-D `x` and a 1-D `slope`:
succeeds with the elementwise prelu values when the shapes broadcast,
and raises ivy's broadcast error otherwise (`x * slope` fails first). -/
def preluWhere (x : Arr2) (slope : List ℚ) : Except PyExc Arr2 :=
  if broadcastCompatible x.shape [slope.length] then
    .ok ⟨x.rows.map (fun row =>
      List.zipWith (fun xi s => if xi > 0 then xi else xi * s) row slope)⟩
  else .error .ivyError

/-- `prelu` exactly as written in
src/ivy/functional/ivy/experimental/activations.py: the `try` body is
the direct `ivy.where`; its `except` clause is
`except ivy.utils.exceptions.IvyError(...) as IvyException:`, which
matches the in-flight exception against an exception *instance* — CPython
only accepts classes there and aborts the match with `TypeError`, so the
reshape fallback written under the `except` is unreachable. -/
def prelu (x : Arr2) (slope : List ℚ) : Except PyExc Arr2 :=
  match preluWhere x slope with
  | .ok r => .ok r
  | .error _ => .error .typeError

/-- Modelled from the spec: the *intended* `prelu` of §9 (the code's
`except` clause is flagged there as a latent defect) — attempt direct
broadcasting; on shape incompatibility, when `slope` is one-dimensional
and its length matches exactly one dimension of `x.shape`, reshape it so
it broadcasts against `x` and retry; otherwise re-raise
`ShapeMismatchError`. -/
def preluIntended (x : Arr2) (slope : List ℚ) : Except PyExc Arr2 :=
  match preluWhere x slope with
  | .ok r => .ok r
  | .error _ =>
      if x.shape.count slope.length = 1 then
        if x.rows.length = slope.length then
          .ok ⟨List.zipWith (fun row s =>
            row.map (fun xi => if xi > 0 then xi else xi * s)) x.rows slope⟩
        else
          preluWhere x slope
      else .error .shapeMismatchError

/-! ## Dtype-carrying flat arrays and the value-level kernels -/

/-- A one-dimensional array carrying its dtype tag; finite element
values are rationals (integer dtypes embed exactly into ℚ, so the
`astype` casts the claims exercise preserve the values and only retag
the dtype). -/
structure QArr where
  dtype : Dtype
  data : List ℚ
  deriving DecidableEq, Repr

/-- `astype` on this model: retag the dtype (the casts reached by the
claims are value-preserving: int→float and float→same-float). -/
def astype (x : QArr) (d : Dtype) : QArr :=
  ⟨d, x.data⟩

/-- `jax.nn.relu6`, the well-known formula `min (max x 0) 6` applied
elementwise (an external jax kernel; spec §1 keeps such kernels as thin
known formulas). -/
def relu6Kernel (q : ℚ) : ℚ := min (max q 0) 6

/-- Modelled from the spec: `ivy.bind_custom_gradient_function`
(defined in ivy's gradient module, which is not under src/) attaches a
custom gradient rule to a kernel; gradients are out of scope (§1), and
the forward values are those of the wrapped kernel. -/
def bind_custom_gradient_function (f : ℚ → ℚ) : ℚ → ℚ := f

/-- The jax backend `relu6`
(src/ivy/functional/backends/jax/experimental/activations.py): apply
`jax.nn.relu6` under `bind_custom_gradient_function`, then
`.astype(x.dtype)`. -/
def relu6 (x : QArr) : QArr :=
  astype ⟨x.dtype, x.data.map (bind_custom_gradient_function relu6Kernel)⟩ x.dtype

/-! ## The jax frontend `leaky_relu` -/

/-- `_type_conversion_64` from
src/ivy/functional/frontends/jax/nn/non_linear_activations.py: a dtype
whose name contains `"float"` is kept; every other dtype is cast to
float64. -/
def type_conversion_64 (x : QArr) : QArr :=
  if x.dtype.isFloatStr then astype x x.dtype else astype x .float64

/-- `jax.nn.leaky_relu(x, negative_slope)` =
`where(x >= 0, x, negative_slope * x)` — the external kernel behind the
jax backend `leaky_relu`, which `ivy.leaky_relu` delegates to with
`alpha` as the slope. -/
def ivyLeakyRelu (x : QArr) (alpha : ℚ) : QArr :=
  ⟨x.dtype, x.data.map (fun v => if 0 ≤ v then v else alpha * v)⟩

/-- The default of the frontend's `negative_slope` parameter, `0.01`. -/
def leakyReluDefaultSlope : ℚ := 1 / 100

/-- The jax frontend `leaky_relu(x, negative_slope=0.01)`: convert `x`
through `_type_conversion_64`, then delegate to `ivy.leaky_relu` with
`alpha=negative_slope`. -/
def frontendLeakyRelu (x : QArr) (negative_slope : ℚ) : QArr :=
  ivyLeakyRelu (type_conversion_64 x) negative_slope

/-- A parameter of a Python signature: its label and optional default. -/
structure ParamSpec where
  label : String
  default : Option ℚ
  deriving DecidableEq, Repr

/-- The signature of the frontend `leaky_relu` as declared in
src/ivy/functional/frontends/jax/nn/non_linear_activations.py. -/
def frontendLeakyReluSig : List ParamSpec :=
  [⟨"x", none⟩, ⟨"negative_slope", some leakyReluDefaultSlope⟩]

/-- Modelled from the spec: the foreign library's signature
`leaky_relu(x, negative_slope=0.01)` that §6 requires the adapter to
match exactly, including default values. -/
def foreignLeakyReluSig : List ParamSpec :=
  [⟨"x", none⟩, ⟨"negative_slope", some (1 / 100)⟩]

/-! ## Output-argument writeback (spec-modelled pipeline stage) -/

/-- Observable outcome of one unified-op call: the returned value or
error, the contents of the `out` slot afterwards, and whether the
backend implementation was invoked at all. -/
structure CallOutcome where
  result : Except PyExc (List ℚ)
  outAfter : Option (List ℚ)
  backendCalled : Bool
  deriving Repr

/-- Modelled from the spec: `handle_out_argument` lives in
ivy/func_wrapper.py, which is not under src/. Per §4.4 stage 7 and the
§7 propagation policy, when an `out` array is supplied its shape must be
broadcast-compatible with the result shape; an incompatible `out` raises
`ShapeMismatchError` before any backend call and leaves `out` untouched,
while a compatible `out` receives the backend result in place. -/
def runWithOut (resultShape : List ℕ) (backendImpl : List ℚ)
    (out : Option (List ℕ × List ℚ)) : CallOutcome :=
  match out with
  | none => ⟨.ok backendImpl, none, true⟩
  | some (oshape, odata) =>
      if broadcastCompatible oshape resultShape then
        ⟨.ok backendImpl, some backendImpl, true⟩
      else
        ⟨.error .shapeMismatchError, some odata, false⟩

/-! ## The jax backend `batch_norm` -/

/-- The mean of a list of rationals (`jnp.mean` over all entries). -/
def qmean (l : List ℚ) : ℚ := l.sum / l.length

/-- The population variance of a list (`jnp.var`, ddof = 0). -/
def qvar (l : List ℚ) : ℚ :=
  qmean (l.map (fun v => (v - qmean l) ^ 2))

/-- A three-dimensional array `x[n][c][s]` of shape (N, C, S) — the
batch, feature and spatial axes of `batch_norm`'s documented layout. -/
abbrev Arr3 := List (List (List ℚ))

/-- Transpose of a rectangular nested list (`jnp.transpose` swapping
the two outermost axes); `d` is the padding default, never reached on
the rectangular arrays jax passes around. -/
def transpose2d {α : Type} (d : α) (m : List (List α)) : List (List α) :=
  match m with
  | [] => []
  | r :: _ => (List.range r.length).map (fun j => m.map (fun row => row.getD j d))

/-- `jnp.mean(x, axis=(0, 2))` on an (N, C, S) array: one mean per
feature channel, over the batch and spatial axes. -/
def meanAxes02 (x : Arr3) : List ℚ :=
  (transpose2d [] x).map (fun ch => qmean ch.flatten)

/-- `jnp.var(x, axis=(0, 2))` on an (N, C, S) array. -/
def varAxes02 (x : Arr3) : List ℚ :=
  (transpose2d [] x).map (fun ch => qvar ch.flatten)

/-- The jax backend `batch_norm`
(src/ivy/functional/backends/jax/experimental/activations.py) for the
documented (N, C, S) layout, where `dims = (0, 2)`: when `training` is
true the supplied `mean`/`variance` are shadowed by the axis-(0,2)
statistics of `x`; `x` is transposed to channel-last, normalized with
`inv = 1 / sqrt(variance + eps)` (times `scale` when given) and the
`offset - mean * inv` shift, then transposed back. `jnp.sqrt` is an
external kernel, passed in as `sqrtFn`; the `.astype(x.dtype)` casts
are value-preserving on this rational model. -/
def batch_norm (x : Arr3) (mean variance : List ℚ)
    (scale offset : Option (List ℚ)) (training : Bool) (eps : ℚ)
    (sqrtFn : ℚ → ℚ) : Arr3 :=
  let m := if training then meanAxes02 x else mean
  let v := if training then varAxes02 x else variance
  let xt := x.map (transpose2d 0)
  let inv0 := v.map (fun q => 1 / sqrtFn (q + eps))
  let inv := match scale with
    | some s => List.zipWith (fun a b => a * b) inv0 s
    | none => inv0
  let minv := List.zipWith (fun a b => a * b) m inv
  let shift := match offset with
    | some o => List.zipWith (fun oc mc => oc - mc) o minv
    | none => minv.map Neg.neg
  let ret := xt.map (fun plane => plane.map (fun row =>
    List.zipWith (fun a b => a + b)
      (List.zipWith (fun a b => a * b) row inv) shift))
  ret.map (transpose2d 0)

/-! ## The jax backend `softplus` -/

/-- `jax.nn.softplus`, kept abstract as an external kernel `sp`;
the jax backend `softplus`
(src/ivy/functional/backends/jax/experimental/activations.py): with
`beta` set, `x_beta = x * beta` and `res = softplus(x_beta) / beta`;
with `threshold` set, `where(x_beta > threshold, x, res)`; the result is
cast with `.astype(x.dtype)`. -/
def softplus (x : QArr) (beta threshold : Option ℚ) (sp : ℚ → ℚ) : QArr :=
  let xBeta : List ℚ :=
    match beta with
    | none => x.data
    | some b => x.data.map (fun v => v * b)
  let res : List ℚ :=
    match beta with
    | none => xBeta.map sp
    | some b => xBeta.map (fun v => sp v / b)
  match threshold with
  | some t =>
      astype ⟨x.dtype,
        List.zipWith (fun p r => if p.1 > t then p.2 else r)
          (xBeta.zip x.data) res⟩ x.dtype
  | none => astype ⟨x.dtype, res⟩ x.dtype

/-! ## Theorems -/

/-- Claim C1, counterexample: `_batch_promotion` tests `float32`
membership before the int64/uint64 rule, so `promote(float32, int64)`
is `float32`, not the `float64` the claim demands. -/
theorem c1_promotion_counterexample :
    promote .float32 .int64 = .float32 ∧ promote .float32 .int64 ≠ .float64 := by
  decide

/-- Claim C1 (amended): promotion is commutative and float64 dominates,
but any float dtype beats the integer widths: int64/uint64 promote to
float64 only when no float-family dtype is present, and
`promote(float32, int64) = float32`. -/
theorem c1_promotion_amended :
    (∀ d1 d2 : Dtype, promote d1 d2 = promote d2 d1) ∧
    (∀ d : Dtype, promote .float64 d = .float64 ∧ promote d .float64 = .float64) ∧
    (∀ d1 d2 : Dtype, d1.isFloatStr = false → d2.isFloatStr = false →
      (d1 = .int64 ∨ d1 = .uint64) → promote d1 d2 = .float64) ∧
    promote .float32 .int64 = .float32 := by
  decide

/-- Witness for the amended C1 at concrete dtypes. -/
theorem c1_promotion_amended_witness : promote .int64 .int32 = .float64 :=
  c1_promotion_amended.2.2.1 .int64 .int32 rfl rfl (Or.inl rfl)

/-- The log-odds computation `jnp.log (x / (1 - x))` on a finite input
agrees with the specification's guarded log-odds map. -/
theorem flog_fdiv_logOdds (q : ℚ) :
    flog (fdiv (FVal.fin q) (oneMinus (FVal.fin q))) = logOddsSpec q := by
  rcases lt_trichotomy q 0 with hq | hq | hq
  · have hb : (0:ℚ) < 1 - q := by linarith
    have hb' : (1:ℚ) - q ≠ 0 := ne_of_gt hb
    have hneg : q / (1 - q) < 0 := div_neg_of_neg_of_pos hq hb
    simp [oneMinus, fdiv, flog, logOddsSpec, hb', hneg, hq]
  · subst hq
    norm_num [oneMinus, fdiv, flog, logOddsSpec]
  · rcases lt_trichotomy q 1 with h1 | h1 | h1
    · have hb : (0:ℚ) < 1 - q := by linarith
      have hb' : (1:ℚ) - q ≠ 0 := ne_of_gt hb
      have hpos : 0 < q / (1 - q) := div_pos hq hb
      have h0 : ¬ (q < 0 ∨ q > 1) := by push_neg; constructor <;> linarith
      simp [oneMinus, fdiv, flog, logOddsSpec, hb', not_lt_of_gt hpos,
        ne_of_gt hpos, h0, ne_of_lt h1, ne_of_gt hq]
    · subst h1
      norm_num [oneMinus, fdiv, flog, logOddsSpec]
    · have hb : (1:ℚ) - q < 0 := by linarith
      have hb' : (1:ℚ) - q ≠ 0 := ne_of_lt hb
      have hneg : q / (1 - q) < 0 := div_neg_of_pos_of_neg hq hb
      have h0 : q < 0 ∨ q > 1 := Or.inr h1
      simp [oneMinus, fdiv, flog, logOddsSpec, hb', hneg, h0]

/-- Claim C2 (confirmed): the jax backend `logit` realizes the claimed
elementwise contract — with `eps=None`, NaN off `[0,1]`, `+inf` exactly
at 1, `-inf` exactly at 0 and `log (x/(1-x))` elsewhere; with `eps` set,
clamp to `[eps, 1-eps]` first; and
`logit([1, 0, 0.9], eps=None) = [+inf, -inf, log 9]`. -/
theorem c2_logit_contract :
    (∀ (x : ℚ) (eps : Option ℚ), logitElem x eps = logitSpecElem x eps) ∧
    logit [1, 0, 9/10] none = [.lpinf, .lninf, .logOf 9] := by
  constructor
  · intro x eps
    cases eps with
    | none =>
        by_cases h : x > 1 ∨ x < 0
        · have h' : x < 0 ∨ x > 1 := h.symm
          simp [logitElem, logitSpecElem, h, h', oneMinus, fdiv, flog]
        · have h' : ¬ (x < 0 ∨ x > 1) := fun hc => h hc.symm
          simpa [logitElem, logitSpecElem, h, h'] using flog_fdiv_logOdds x
    | some e => simpa [logitElem, logitSpecElem] using
        flog_fdiv_logOdds (min (max x e) (1 - e))
  · norm_num [logit, logitElem, oneMinus, fdiv, flog]

/-- Claim C3 (code_bug): on shapes where direct broadcasting fails —
`x` of shape (3,2), `slope` of shape (3,) — the `prelu` in the source
raises `TypeError` (its `except` clause matches against an `IvyError`
*instance*, which CPython rejects, making the reshape fallback
unreachable), while the documented intent retries with the reshaped
slope and succeeds. -/
theorem c3_prelu_defect :
    prelu ⟨[[1, -2], [-3, 4], [5, -6]]⟩ [2, 3, 4] = .error .typeError ∧
    preluIntended ⟨[[1, -2], [-3, 4], [5, -6]]⟩ [2, 3, 4] =
      .ok ⟨[[1, -4], [-9, 4], [5, -24]]⟩ := by
  constructor <;>
    norm_num [prelu, preluIntended, preluWhere, broadcastCompatible,
      dimCompatible, Arr2.shape]

/-- Claim C4, counterexample: the decorator stacks are not one fixed
pipeline — `logit` and `relu6` are wrapped in different orders. -/
theorem c4_decorators_counterexample : logitDecorators ≠ relu6Decorators := by
  decide

/-- Claim C4 (amended): every public op's stack contains
`handle_out_argument`, `handle_nestable` and `to_native_arrays_and_back`,
with `handle_exceptions` immediately outside
`handle_array_like_without_promotion`; but the order is not canonical
(`logit` starts with `handle_out_argument`, `relu6` with
`to_native_arrays_and_back`) and `handle_array_function` appears on only
some stacks. -/
theorem c4_decorators_amended :
    allOpDecorators.all hasCoreStack = true ∧
    logitDecorators ≠ relu6Decorators ∧
    logitDecorators.head? = some .handle_out_argument ∧
    relu6Decorators.head? = some .to_native_arrays_and_back ∧
    relu6Decorators.contains .handle_array_function = true ∧
    logitDecorators.contains .handle_array_function = false := by
  decide

/-- Claim C5 (confirmed, spec-modelled): calling a unified op with an
`out` array whose shape is not broadcast-compatible with the result
shape yields `ShapeMismatchError`, no backend call, and unmodified
`out` contents. -/
theorem c5_out_shape_mismatch (resShape : List ℕ) (impl : List ℚ)
    (os : List ℕ) (od : List ℚ)
    (h : broadcastCompatible os resShape = false) :
    runWithOut resShape impl (some (os, od)) =
      ⟨.error .shapeMismatchError, some od, false⟩ := by
  simp [runWithOut, h]

/-- Witness for C5 at concrete shapes: a length-2 `out` against a
length-3 result. -/
theorem c5_out_shape_mismatch_witness :
    broadcastCompatible [2] [3] = false ∧
    runWithOut [3] [1, 2, 3] (some ([2], [9, 9])) =
      ⟨.error .shapeMismatchError, some [9, 9], false⟩ :=
  ⟨by decide, c5_out_shape_mismatch [3] [1, 2, 3] [2] [9, 9] (by decide)⟩

/-- Claim C6, counterexample: `logit` does not carry the
`integer_arrays_to_float` decorator, so the unconditional
integer-to-float promotion the claim asserts for the whole real-only op
class does not reach `logit`. -/
theorem c6_int_to_float_counterexample :
    logitDecorators.contains .integer_arrays_to_float = false := by
  decide

/-- Claim C6 (amended): `sigmoid` (with `hard_sigmoid`, `selu`,
`hard_tanh`, `log_sigmoid`, which share its stack) carries
`integer_arrays_to_float`, but `logit` does not — the unconditional
integer-to-float promotion applies to `sigmoid` and not to `logit`. -/
theorem c6_int_to_float_amended :
    sigmoidDecorators.contains .integer_arrays_to_float = true ∧
    logitDecorators.contains .integer_arrays_to_float = false ∧
    softplusDecorators.contains .integer_arrays_to_float = false ∧
    relu6Decorators.contains .integer_arrays_to_float = false := by
  decide

/-- Claim C7 (confirmed): the jax backend `relu6` clips every element
to `[0, 6]` (`min (max x 0) 6`), preserves the input dtype, and maps
`[-1,0,1,2,3,4,5,6,7]` to `[0,0,1,2,3,4,5,6,6]`. -/
theorem c7_relu6_clips :
    (∀ x : QArr, (relu6 x).dtype = x.dtype ∧
      (relu6 x).data = x.data.map (fun v => min (max v 0) 6)) ∧
    relu6 ⟨.float32, [-1, 0, 1, 2, 3, 4, 5, 6, 7]⟩ =
      ⟨.float32, [0, 0, 1, 2, 3, 4, 5, 6, 6]⟩ := by
  refine ⟨fun x => ⟨rfl, rfl⟩, ?_⟩
  norm_num [relu6, astype, relu6Kernel, bind_custom_gradient_function]

/-- Claim C8 (confirmed): the jax frontend `leaky_relu` has exactly the
foreign signature `leaky_relu(x, negative_slope=0.01)`, converts every
non-float input to a floating dtype (float64) via `_type_conversion_64`
before delegating, leaves float inputs untouched, and delegates to the
unified `leaky_relu` with `alpha = negative_slope`. -/
theorem c8_frontend_leaky_relu :
    frontendLeakyReluSig = foreignLeakyReluSig ∧
    leakyReluDefaultSlope = 1 / 100 ∧
    (∀ x : QArr, (type_conversion_64 x).dtype.isFloatStr = true ∧
      (x.dtype.isFloatStr = false → (type_conversion_64 x).dtype = .float64) ∧
      (x.dtype.isFloatStr = true → type_conversion_64 x = x)) ∧
    (∀ (x : QArr) (slope : ℚ),
      frontendLeakyRelu x slope = ivyLeakyRelu (type_conversion_64 x) slope) := by
  refine ⟨rfl, rfl, fun x => ⟨?_, ?_, ?_⟩, fun x s => rfl⟩
  · cases hd : x.dtype.isFloatStr with
    | true => simp [type_conversion_64, astype, hd]
    | false =>
        have hfl : type_conversion_64 x = ⟨.float64, x.data⟩ := by
          simp [type_conversion_64, astype, hd]
        rw [hfl]
        rfl
  · intro h
    simp [type_conversion_64, astype, h]
  · intro h
    simp [type_conversion_64, astype, h]

/-- Witness for C8 at a concrete int32 input. -/
theorem c8_frontend_leaky_relu_witness :
    (type_conversion_64 ⟨.int32, [5]⟩).dtype = .float64 ∧
    frontendLeakyRelu ⟨.int32, [5]⟩ (1/2) =
      ivyLeakyRelu (type_conversion_64 ⟨.int32, [5]⟩) (1/2) :=
  ⟨(c8_frontend_leaky_relu.2.2.1 ⟨.int32, [5]⟩).2.1 rfl,
   c8_frontend_leaky_relu.2.2.2 ⟨.int32, [5]⟩ (1/2)⟩

/-- Transposing a 1×1 nested list is the identity. -/
theorem transpose2d_singleton {α : Type} (d : α) (a : α) :
    transpose2d d [[a]] = [[a]] := rfl

/-- Claim C9 (confirmed): with `training=True` the jax backend
`batch_norm` ignores the supplied `mean`/`variance` — the result equals
the `training=False` run fed the axis-(0,2) statistics of `x` (batch
axis 0 and the spatial axis; every axis except the feature axis 1) —
while with `training=False` the supplied moments do influence the
result. -/
theorem c9_batch_norm_training :
    (∀ (x : Arr3) (m1 v1 m2 v2 : List ℚ) (scale offset : Option (List ℚ))
      (eps : ℚ) (sqrtFn : ℚ → ℚ),
      batch_norm x m1 v1 scale offset true eps sqrtFn =
        batch_norm x m2 v2 scale offset true eps sqrtFn ∧
      batch_norm x m1 v1 scale offset true eps sqrtFn =
        batch_norm x (meanAxes02 x) (varAxes02 x) scale offset false eps sqrtFn) ∧
    batch_norm [[[1]]] [0] [1] none none false 0 (fun q => q) ≠
      batch_norm [[[1]]] [1] [1] none none false 0 (fun q => q) := by
  refine ⟨fun x m1 v1 m2 v2 scale offset eps sqrtFn => ⟨rfl, rfl⟩, ?_⟩
  intro hcontra
  have h1 : batch_norm [[[1]]] [0] [1] none none false 0 (fun q => q) =
      [[[1]]] := by norm_num [batch_norm, transpose2d_singleton]
  have h2 : batch_norm [[[1]]] [1] [1] none none false 0 (fun q => q) =
      [[[0]]] := by norm_num [batch_norm, transpose2d_singleton]
  rw [h1, h2] at hcontra
  norm_num at hcontra

/-- The `where(x_beta > threshold, x, res)` zip over the two maps of the
same base list collapses to a single elementwise map. -/
theorem zipWith_softplus_collapse (l : List ℚ) (b t : ℚ) (sp : ℚ → ℚ) :
    List.zipWith (fun p r => if p.1 > t then p.2 else r)
      ((l.map (fun v => v * b)).zip l)
      ((l.map (fun v => v * b)).map (fun v => sp v / b)) =
      l.map (fun v => if v * b > t then v else sp (v * b) / b) := by
  induction l with
  | nil => rfl
  | cons a l ih =>
      simp only [List.map_cons, List.zip_cons_cons, List.zipWith_cons_cons, ih]

/-- Claim C10 (confirmed): with `beta` and `threshold` both set, the
jax backend `softplus` compares `x * beta` (not `x`) against the
threshold, passes the original `x` through where `x * beta > threshold`,
computes `softplus(x * beta) / beta` elsewhere, and always casts the
result back to the input's dtype. -/
theorem c10_softplus_threshold :
    (∀ (x : QArr) (b t : ℚ) (sp : ℚ → ℚ),
      softplus x (some b) (some t) sp =
        ⟨x.dtype, x.data.map (fun v => if v * b > t then v else sp (v * b) / b)⟩) ∧
    (∀ (x : QArr) (beta threshold : Option ℚ) (sp : ℚ → ℚ),
      (softplus x beta threshold sp).dtype = x.dtype) := by
  constructor
  · intro x b t sp
    simp only [softplus, astype, QArr.mk.injEq, true_and]
    exact zipWith_softplus_collapse x.data b t sp
  · intro x beta threshold sp
    cases beta <;> cases threshold <;> rfl

end IvySpec

